import Mathlib

/-!
Verification of the AuraAnim job-orchestration frontend
(repository michal-proc/aura-anim-engineering-thesis-project).

This file gives a shallow embedding of the job data model and the
job-monitoring operations of the frontend:

* `JobStatus`, `Job`, `VideoJobParameters` — from
  `src/frontend/types/video.types.ts`;
* `mockJobs`, `mockJobsMeta` — from `src/frontend/lib/mock-data.ts`;
* `videoApi.cancelJob`, `videoApi.getJobs` (mock branches) — from
  `src/frontend/api/video.ts`;
* the `useJobMonitor` zustand store (`addJob`, `updateJob`,
  `connectWebSocket`, the mock progress interval, and the WebSocket
  `onmessage` handler) — from the job-monitor store source;
* the pipeline factor derivation (backend, not part of the frontend
  sources) is modelled from the specification.

TypeScript `number` progress accumulators are embedded as `ℚ`
(`Math.random() * 15` becomes an arbitrary rational `r` with
`0 ≤ r < 15`); record fields keep their source names; fallible
operations return `Except`.
-/

namespace AuraAnim

/-- Job status enum, from `src/frontend/types/video.types.ts`:
`"pending" | "processing" | "completed" | "failed" | "cancelled"`. -/
inductive JobStatus : Type
  | pending
  | processing
  | completed
  | failed
  | cancelled
deriving DecidableEq, Repr, Inhabited

/-- The terminal statuses, the string list
`["completed", "failed", "cancelled"]` used throughout the frontend. -/
def JobStatus.isTerminal : JobStatus → Bool
  | .completed => true
  | .failed => true
  | .cancelled => true
  | _ => false

/-- `VideoJobParameters` from `src/frontend/types/video.types.ts`. -/
structure VideoJobParameters : Type where
  prompt : String
  width : Nat
  height : Nat
  video_length : Nat
  fps : Nat
deriving DecidableEq, Repr, Inhabited

/-- The `Job` interface from `src/frontend/types/video.types.ts`.
Optional (`?`) and nullable fields are embedded as `Option`. -/
structure Job : Type where
  job_id : String
  vid_id : Option String
  status : JobStatus
  progress_percentage : Nat
  current_step : Option String
  created_at : String
  completed_at : Option String
  error_message : Option String
  marked_as_read : Bool
  parameters : VideoJobParameters
deriving DecidableEq, Repr, Inhabited

/-- The seven mock job records of `mockJobs` in
`src/frontend/lib/mock-data.ts` (the `output_format` entries of the
literals are not part of the declared `VideoJobParameters` type and are
dropped; `error_message` is absent in every literal, hence `none`). -/
def mockJobs : List Job :=
  [ { job_id := "job-1"
    , vid_id := some "vid-1"
    , status := JobStatus.completed
    , progress_percentage := 100
    , current_step := some "Rendering complete"
    , created_at := "2024-03-20T14:25:00Z"
    , completed_at := some "2024-03-20T14:30:00Z"
    , error_message := none
    , marked_as_read := true
    , parameters :=
      { prompt := "Spectacular rocket launch with smoke and flames"
      , width := 1920, height := 1080, video_length := 12, fps := 30 } }
  , { job_id := "job-2"
    , vid_id := some "vid-2"
    , status := JobStatus.completed
    , progress_percentage := 100
    , current_step := some "Rendering complete"
    , created_at := "2024-03-19T09:10:00Z"
    , completed_at := some "2024-03-19T09:15:00Z"
    , error_message := none
    , marked_as_read := true
    , parameters :=
      { prompt := "A cute corgi running and playing in the park"
      , width := 1920, height := 1080, video_length := 8, fps := 30 } }
  , { job_id := "job-3"
    , vid_id := some "vid-3"
    , status := JobStatus.completed
    , progress_percentage := 100
    , current_step := some "Rendering complete"
    , created_at := "2024-03-18T17:55:00Z"
    , completed_at := some "2024-03-18T18:00:00Z"
    , error_message := none
    , marked_as_read := true
    , parameters :=
      { prompt := "Futuristic neon city with dynamic animations"
      , width := 1920, height := 1080, video_length := 20, fps := 30 } }
  , { job_id := "job-4"
    , vid_id := some "vid-4"
    , status := JobStatus.completed
    , progress_percentage := 100
    , current_step := some "Rendering complete"
    , created_at := "2024-03-17T11:55:00Z"
    , completed_at := some "2024-03-17T12:00:00Z"
    , error_message := none
    , marked_as_read := true
    , parameters :=
      { prompt := "Peaceful ocean waves with blue water"
      , width := 1920, height := 1080, video_length := 10, fps := 30 } }
  , { job_id := "job-5"
    , vid_id := some "vid-5"
    , status := JobStatus.completed
    , progress_percentage := 100
    , current_step := some "Rendering complete"
    , created_at := "2024-03-16T15:25:00Z"
    , completed_at := some "2024-03-16T15:30:00Z"
    , error_message := none
    , marked_as_read := false
    , parameters :=
      { prompt := "Colorful abstract motion graphics with vibrations"
      , width := 1920, height := 1080, video_length := 15, fps := 30 } }
  , { job_id := "job-6"
    , vid_id := none
    , status := JobStatus.processing
    , progress_percentage := 65
    , current_step := some "Generating frames"
    , created_at := "2024-03-21T10:00:00Z"
    , completed_at := none
    , error_message := none
    , marked_as_read := false
    , parameters :=
      { prompt := "Fireworks exploding over city skyline at night"
      , width := 1920, height := 1080, video_length := 18, fps := 30 } }
  , { job_id := "job-7"
    , vid_id := none
    , status := JobStatus.pending
    , progress_percentage := 0
    , current_step := some "Waiting in queue"
    , created_at := "2024-03-21T11:30:00Z"
    , completed_at := none
    , error_message := none
    , marked_as_read := false
    , parameters :=
      { prompt := "Underwater coral reef with tropical fish swimming"
      , width := 1920, height := 1080, video_length := 25, fps := 30 } }
  ]

/-- `JobsMeta` from `src/frontend/types/video.types.ts`. -/
structure JobsMeta : Type where
  total_count : Nat
  active_count : Nat
  failed_count : Nat
  completed_count : Nat
  unread_count : Nat
deriving DecidableEq, Repr

/-- `mockJobsMeta` from `src/frontend/lib/mock-data.ts`: counts computed
once, at module load, from the initial `mockJobs` array. -/
def mockJobsMeta : JobsMeta where
  total_count := mockJobs.length
  active_count :=
    (mockJobs.filter
      (fun j => j.status == JobStatus.pending || j.status == JobStatus.processing)).length
  failed_count := (mockJobs.filter (fun j => j.status == JobStatus.failed)).length
  completed_count := (mockJobs.filter (fun j => j.status == JobStatus.completed)).length
  unread_count := (mockJobs.filter (fun j => !j.marked_as_read)).length

/-- `videoApi.getJobs` (mock branch) from `src/frontend/api/video.ts`:
returns the current (mutable) `mockJobs` array together with the
load-time `mockJobsMeta`.  The module-level mutable array is passed
explicitly as `jobs`. -/
def getJobs (jobs : List Job) : List Job × JobsMeta :=
  (jobs, mockJobsMeta)

/-- `job.status = "cancelled"` applied to the object returned by
`mockJobs.find(...)` in `videoApi.cancelJob`: in-place mutation of the
first record whose `job_id` matches. -/
def cancelFirst : List Job → String → List Job
  | [], _ => []
  | j :: rest, jobId =>
    if j.job_id == jobId then { j with status := JobStatus.cancelled } :: rest
    else j :: cancelFirst rest jobId

/-- `videoApi.cancelJob` (mock branch) from `src/frontend/api/video.ts`:
looks the job up by id, throws `"Job not found"` when absent, throws
`"Job cannot be cancelled in current status"` unless the status is
`pending` or `processing`, and otherwise sets the status to
`cancelled` (and touches no other field). -/
def cancelJob (jobs : List Job) (jobId : String) : Except String (List Job) :=
  match jobs.find? (fun j => j.job_id == jobId) with
  | none => Except.error "Job not found"
  | some j =>
    if j.status != JobStatus.pending && j.status != JobStatus.processing then
      Except.error "Job cannot be cancelled in current status"
    else
      Except.ok (cancelFirst jobs jobId)

/-- `Partial<Job>`: the update record passed to
`useJobMonitor.updateJob`.  Each field is optional; a `some` entry
overrides the corresponding `Job` field (`{ ...job, ...update }`). -/
structure JobPatch : Type where
  job_id : Option String := none
  vid_id : Option (Option String) := none
  status : Option JobStatus := none
  progress_percentage : Option Nat := none
  current_step : Option (Option String) := none
  created_at : Option String := none
  completed_at : Option (Option String) := none
  error_message : Option (Option String) := none
  marked_as_read : Option Bool := none
  parameters : Option VideoJobParameters := none
deriving DecidableEq, Repr

/-- The spread `{ ...job, ...update }` applied to one job record. -/
def applyPatch (j : Job) (u : JobPatch) : Job where
  job_id := u.job_id.getD j.job_id
  vid_id := u.vid_id.getD j.vid_id
  status := u.status.getD j.status
  progress_percentage := u.progress_percentage.getD j.progress_percentage
  current_step := u.current_step.getD j.current_step
  created_at := u.created_at.getD j.created_at
  completed_at := u.completed_at.getD j.completed_at
  error_message := u.error_message.getD j.error_message
  marked_as_read := u.marked_as_read.getD j.marked_as_read
  parameters := u.parameters.getD j.parameters

/-- Whether the patch carries a terminal status:
`update.status && ["completed", "failed", "cancelled"].includes(update.status)`
in `useJobMonitor.updateJob`. -/
def patchIsTerminal (u : JobPatch) : Bool :=
  match u.status with
  | some st => st.isTerminal
  | none => false

/-- The `useJobMonitor` zustand store state: the `activeJobs` array and
the key set of the `websockets` map (the map values — socket handles and
interval timers — carry no data relevant to the verified properties). -/
structure MonitorState : Type where
  activeJobs : List Job
  websockets : List String
deriving DecidableEq, Repr

/-- `useJobMonitor.disconnectWebSocket`: closes the connection (an
external effect) and deletes the entry from the `websockets` map. -/
def disconnectWebSocket (s : MonitorState) (jobId : String) : MonitorState :=
  { s with websockets := s.websockets.erase jobId }

/-- `useJobMonitor.updateJob`: maps over `activeJobs` replacing the
matching job by `{ ...job, ...update }`, then, when the update's status
is terminal, disconnects that job's WebSocket (the delayed `removeJob`
fires 5 seconds later and is a separate step, not part of this one). -/
def updateJob (s : MonitorState) (jobId : String) (u : JobPatch) : MonitorState :=
  let s' :=
    { s with activeJobs :=
        s.activeJobs.map (fun job => if job.job_id == jobId then applyPatch job u else job) }
  if patchIsTerminal u then disconnectWebSocket s' jobId else s'

/-- Error codes from the frontend API layer (`ErrorCode` enum). -/
inductive ErrorCode : Type
  | INVALID_CREDENTIALS
  | NETWORK_ERROR
  | UNKNOWN_ERROR
  | NOT_FOUND
  | INVALID_STATUS
deriving DecidableEq, Repr

/-- `useJobMonitor.connectWebSocket` (mock branch): if a connection for
`jobId` already exists, do nothing; otherwise register an interval
connection in the `websockets` map.  The first component records any
error condition the call raises — the source function returns `void`
and has no failure path, so it is always `none`. -/
def connectWebSocket (s : MonitorState) (jobId : String) :
    Option ErrorCode × MonitorState :=
  if s.websockets.contains jobId then (none, s)
  else (none, { s with websockets := s.websockets ++ [jobId] })

/-- `useJobMonitor.addJob`: returns the state unchanged if a job with
the same `job_id` is already in `activeJobs`; otherwise appends the job
and, when its status is `pending` or `processing`, connects its
WebSocket. -/
def addJob (s : MonitorState) (job : Job) : MonitorState :=
  if (s.activeJobs.find? (fun j => j.job_id == job.job_id)).isSome then s
  else
    let s' := { s with activeJobs := s.activeJobs ++ [job] }
    if job.status == JobStatus.pending || job.status == JobStatus.processing then
      (connectWebSocket s' job.job_id).2
    else s'

/-- `progress = Math.min(100, progress + Math.random() * 15)` in the
mock progress interval: the accumulator update, with the random
increment `r` made explicit. -/
def tickAcc (acc r : ℚ) : ℚ := min 100 (acc + r)

/-- `progress >= 100 ? "completed" : "processing"`: the status written
by one mock progress update. -/
def tickStatus (p : ℚ) : JobStatus :=
  if p ≥ 100 then JobStatus.completed else JobStatus.processing

/-- The `current_step` label written by one mock progress update. -/
def tickStepLabel (p : ℚ) : String :=
  if p ≥ 100 then "Rendering complete"
  else "Processing frame " ++ toString (Int.toNat ⌊p⌋) ++ "%"

/-- One firing of the mock progress interval installed by
`connectWebSocket` (mock branch).  `acc` is the closure's floating
`progress` accumulator and `r` the value of `Math.random() * 15`.
Returns the new store state and `some` new accumulator value, or `none`
when the interval cleared itself (job gone from `activeJobs`, or
progress reached 100).  Note that in the job-gone branch the source
clears the timer but does not delete the `websockets` entry. -/
def mockTick (s : MonitorState) (jobId : String) (acc r : ℚ) :
    MonitorState × Option ℚ :=
  match s.activeJobs.find? (fun j => j.job_id == jobId) with
  | none => (s, none)
  | some _ =>
    let p := tickAcc acc r
    let u : JobPatch :=
      { progress_percentage := some (Int.toNat ⌊p⌋)
      , status := some (tickStatus p)
      , current_step := some (some (tickStepLabel p)) }
    let s' := updateJob s jobId u
    if p ≥ 100 then ({ s' with websockets := s'.websockets.erase jobId }, none)
    else (s', some p)

/-- The `JobUpdate` message decoded in `ws.onmessage` (real WebSocket
branch): its `status` field is a raw string. -/
structure JobUpdateMsg : Type where
  job_id : String
  status : String
  progress_percentage : Nat
  current_step : Option String
  final : Bool
  timestamp : String
deriving DecidableEq, Repr

/-- The string-level terminal test
`["completed", "failed", "cancelled"].includes(status)`. -/
def isTerminalStr (st : String) : Bool :=
  ["completed", "failed", "cancelled"].contains st

/-- Connection-table effect of one `ws.onmessage` delivery: `updateJob`
disconnects the WebSocket when the message's status string is terminal,
and afterwards the handler itself closes and deletes the connection
when `update.final` is set. -/
def wsOnMessage (websockets : List String) (jobId : String) (u : JobUpdateMsg) :
    List String :=
  let afterUpdate := if isTerminalStr u.status then websockets.erase jobId else websockets
  if u.final then afterUpdate.erase jobId else afterUpdate

/-- Modelled from the spec: the Pipeline Definition component lives in
the backend, which is not among the frontend sources; per the
specification the generator always runs at a fixed base operating
point.  Base resolution constant 512. -/
def BASE_RESOLUTION : Nat := 512

/-- Modelled from the spec: fixed base frame rate 8 fps. -/
def BASE_FPS : Nat := 8

/-- Modelled from the spec: the upscale factor is derived as
`requested resolution / base resolution`. -/
def upscaleFactor (resolution : Nat) : Nat := resolution / BASE_RESOLUTION

/-- Modelled from the spec: the interpolation factor is derived as
`requested fps / base fps`; factor 1 means the interpolation stage is
an identity pass-through. -/
def interpolationFactor (fps : Nat) : Nat := fps / BASE_FPS

/-- Status and progress accumulator of one monitored job: the
projection of the job-monitor state that the lifecycle claims are
about. -/
structure JobState : Type where
  status : JobStatus
  progress : ℚ
deriving DecidableEq, Repr

/-- The transitions the frontend applies to one monitored job:

* `tick` — one firing of the mock progress interval (`mockTick`); its
  increment is `Math.random() * 15`, so `0 ≤ r < 15`.  The interval
  callback checks only that the job is still present in `activeJobs`
  (`if (!currentJob) ...`), never its status, so a tick can fire
  regardless of the job's current status as long as the interval is
  live;
* `cancel` — `videoApi.cancelJob`, which sets the status to
  `cancelled` and is guarded in the source by
  `status === "pending" || status === "processing"`. -/
inductive JobStep : JobState → JobState → Prop
  | tick (s : JobState) (r : ℚ) (h0 : 0 ≤ r) (h1 : r < 15) :
      JobStep s ⟨tickStatus (tickAcc s.progress r), tickAcc s.progress r⟩
  | cancel (s : JobState)
      (hact : s.status = JobStatus.pending ∨ s.status = JobStatus.processing) :
      JobStep s ⟨JobStatus.cancelled, s.progress⟩

/-- A freshly submitted job: status `pending`, progress 0 (the shape of
every newly created job record, e.g. the pending entry of `mockJobs`). -/
def initJobState : JobState := ⟨JobStatus.pending, 0⟩

/-- Position of a status along the lifecycle
`pending → processing → terminal`. -/
def statusRank : JobStatus → Nat
  | .pending => 0
  | .processing => 1
  | _ => 2

/-- The status transitions admitted by the lifecycle
`pending → processing → {completed, failed, cancelled}`, with
cancellation also allowed directly from `pending`. -/
def statusTransitionOk : JobStatus → JobStatus → Prop
  | .pending, .processing => True
  | .pending, .cancelled => True
  | .processing, .completed => True
  | .processing, .failed => True
  | .processing, .cancelled => True
  | _, _ => False

/-- The job-record invariant of the specification: `completed_at` is
set iff the status is terminal, and `progress_percentage = 100` iff
the status is `completed`. -/
def jobInvariant (j : Job) : Prop :=
  (j.completed_at ≠ none ↔ j.status.isTerminal = true) ∧
  (j.progress_percentage = 100 ↔ j.status = JobStatus.completed)

instance (j : Job) : Decidable (jobInvariant j) := by
  unfold jobInvariant; infer_instance

/-- Consistency of a `JobsMeta` record with the job list it
accompanies, stated field by field following the claim. -/
def metaConsistent (jobs : List Job) (m : JobsMeta) : Prop :=
  m.total_count = jobs.length ∧
  m.active_count =
    (jobs.filter
      (fun j => j.status == JobStatus.pending || j.status == JobStatus.processing)).length ∧
  m.failed_count = (jobs.filter (fun j => j.status == JobStatus.failed)).length ∧
  m.completed_count = (jobs.filter (fun j => j.status == JobStatus.completed)).length ∧
  m.unread_count = (jobs.filter (fun j => !j.marked_as_read)).length

instance (jobs : List Job) (m : JobsMeta) : Decidable (metaConsistent jobs m) := by
  unfold metaConsistent; infer_instance

/-! ### Helper lemmas -/

/-- `cancelFirst` changes at most the `status` field: any projection
invariant under the status overwrite is preserved on every record. -/
theorem cancelFirst_map {α : Type} (f : Job → α)
    (hf : ∀ j : Job, f { j with status := JobStatus.cancelled } = f j) :
    ∀ (jobs : List Job) (jobId : String),
      (cancelFirst jobs jobId).map f = jobs.map f := by
  intro jobs jobId
  induction jobs with
  | nil => rfl
  | cons a rest ih =>
    simp only [cancelFirst]
    split
    · simp [hf]
    · simp [ih]

/-- Inversion for the success case of `cancelJob`. -/
theorem cancelJob_ok {jobs : List Job} {jobId : String} {js : List Job}
    (h : cancelJob jobs jobId = Except.ok js) : js = cancelFirst jobs jobId := by
  unfold cancelJob at h
  split at h
  · cases h
  · split at h
    · cases h
    · cases h; rfl

/-- After `cancelFirst`, the record found under the cancelled id is the
previously found record with its status overwritten. -/
theorem cancelFirst_find? (jobs : List Job) (jobId : String) (j : Job)
    (h : jobs.find? (fun x => x.job_id == jobId) = some j) :
    (cancelFirst jobs jobId).find? (fun x => x.job_id == jobId) =
      some { j with status := JobStatus.cancelled } := by
  induction jobs with
  | nil => cases h
  | cons a rest ih =>
    by_cases ha : (a.job_id == jobId) = true
    · have hap : ((fun x : Job => x.job_id == jobId) a) = true := ha
      rw [List.find?_cons_of_pos rest hap] at h
      injection h with h2
      subst h2
      simp only [cancelFirst]
      rw [if_pos ha]
      have hap' : ((fun x : Job => x.job_id == jobId)
          { a with status := JobStatus.cancelled }) = true := ha
      exact List.find?_cons_of_pos rest hap'
    · have han : ¬ ((fun x : Job => x.job_id == jobId) a) = true := ha
      rw [List.find?_cons_of_neg rest han] at h
      simp only [cancelFirst]
      rw [if_neg ha]
      rw [show (a :: cancelFirst rest jobId).find? (fun x => x.job_id == jobId) =
          (cancelFirst rest jobId).find? (fun x => x.job_id == jobId) from
        List.find?_cons_of_neg _ han]
      exact ih h

/-! ### Claims -/

/-- C3: with base resolution 512 and base fps 8 fixed, the pipeline
derives the upscale factor as `requested resolution / 512` and the
interpolation factor as `requested fps / 8`; 1024x1024 @ 24 fps yields
factors 2 and 3, and 512x512 @ 8 fps yields factors 1 and 1 (the
interpolation stage is an identity pass-through). -/
theorem pipeline_factors_correct :
    BASE_RESOLUTION = 512 ∧ BASE_FPS = 8 ∧
    (∀ resolution : Nat, upscaleFactor resolution = resolution / 512) ∧
    (∀ fps : Nat, interpolationFactor fps = fps / 8) ∧
    upscaleFactor 1024 = 2 ∧ interpolationFactor 24 = 3 ∧
    upscaleFactor 512 = 1 ∧ interpolationFactor 8 = 1 :=
  ⟨rfl, rfl, fun _ => rfl, fun _ => rfl, rfl, rfl, rfl, rfl⟩

/-- C1 (counterexample): `"job-1"` is terminal (`completed`) in
`mockJobs`, and cancelling it throws
`"Job cannot be cancelled in current status"` instead of returning the
existing terminal state: cancel is not idempotent on terminal jobs. -/
theorem cancel_terminal_throws :
    ((mockJobs.find? (fun j => j.job_id == "job-1")).map
      (fun j => j.status.isTerminal)) = some true ∧
    cancelJob mockJobs "job-1" =
      Except.error "Job cannot be cancelled in current status" :=
  ⟨by decide, by rfl⟩

/-- C1 (amended): a cancel request against a job whose status is
`pending` or `processing` succeeds and transitions that job to
`cancelled`; a cancel request against a job already in a terminal
status fails with the error
`"Job cannot be cancelled in current status"` (it is not a no-op that
returns the terminal state). -/
theorem cancelJob_spec (jobs : List Job) (jobId : String) (j : Job)
    (h : jobs.find? (fun x => x.job_id == jobId) = some j) :
    ((j.status = JobStatus.pending ∨ j.status = JobStatus.processing) →
      cancelJob jobs jobId = Except.ok (cancelFirst jobs jobId) ∧
      ((cancelFirst jobs jobId).find? (fun x => x.job_id == jobId)).map Job.status =
        some JobStatus.cancelled) ∧
    (j.status.isTerminal = true →
      cancelJob jobs jobId =
        Except.error "Job cannot be cancelled in current status") := by
  constructor
  · intro hact
    have hcond : (j.status != JobStatus.pending && j.status != JobStatus.processing) = false := by
      rcases hact with h1 | h1 <;> rw [h1] <;> rfl
    refine ⟨?_, ?_⟩
    · simp only [cancelJob, h]
      rw [hcond]
      rfl
    · rw [cancelFirst_find? jobs jobId j h]
      rfl
  · intro hterm
    have hcond : (j.status != JobStatus.pending && j.status != JobStatus.processing) = true := by
      cases hst : j.status <;> rw [hst] at hterm <;> first | rfl | cases hterm
    simp only [cancelJob, h]
    rw [hcond]
    rfl

/-- C1 (witness): cancelling the `processing` job `"job-6"` of
`mockJobs` succeeds and yields status `cancelled` for it. -/
theorem cancelJob_spec_witness :
    cancelJob mockJobs "job-6" = Except.ok (cancelFirst mockJobs "job-6") ∧
    ((cancelFirst mockJobs "job-6").find? (fun x => x.job_id == "job-6")).map Job.status =
      some JobStatus.cancelled := by
  have h : mockJobs.find? (fun x => x.job_id == "job-6") =
      some (mockJobs.get ⟨5, by decide⟩) := by rfl
  exact (cancelJob_spec mockJobs "job-6" _ h).1 (Or.inr rfl)

/-- C5 (counterexample): cancelling the `processing` job `"job-6"`
(whose `completed_at` is `null`) yields a record with status
`cancelled` but `completed_at` still `null`: the cancel operation does
not establish a non-null `completed_at`, so the invariant
`completed_at set iff terminal` is not preserved. -/
theorem cancel_leaves_completed_at_null :
    ((cancelJob mockJobs "job-6").toOption.bind
        (fun js => js.find? (fun j => j.job_id == "job-6"))).map
      (fun j => (j.status, j.completed_at, decide (jobInvariant j))) =
    some (JobStatus.cancelled, none, false) := by decide

/-- C5 (amended): every initial mock job record satisfies the
invariant (`completed_at` set iff terminal status, progress 100 iff
`completed`), but `cancelJob` rewrites only the `status` field: it
leaves `completed_at` (and `progress_percentage`) of every record
unchanged, so cancelling does not establish a non-null
`completed_at`. -/
theorem jobInvariant_initial_and_cancel_frame :
    (∀ j ∈ mockJobs, jobInvariant j) ∧
    ∀ (jobs : List Job) (jobId : String) (js : List Job),
      cancelJob jobs jobId = Except.ok js →
        js.map Job.completed_at = jobs.map Job.completed_at ∧
        js.map Job.progress_percentage = jobs.map Job.progress_percentage := by
  refine ⟨by decide, ?_⟩
  intro jobs jobId js h
  rw [cancelJob_ok h]
  exact ⟨cancelFirst_map Job.completed_at (fun _ => rfl) jobs jobId,
    cancelFirst_map Job.progress_percentage (fun _ => rfl) jobs jobId⟩

/-- C5 (witness): instantiating the frame property at the successful
cancellation of `"job-6"` in `mockJobs`. -/
theorem jobInvariant_cancel_frame_witness :
    (cancelFirst mockJobs "job-6").map Job.completed_at =
      mockJobs.map Job.completed_at ∧
    (cancelFirst mockJobs "job-6").map Job.progress_percentage =
      mockJobs.map Job.progress_percentage :=
  jobInvariant_initial_and_cancel_frame.2 mockJobs "job-6"
    (cancelFirst mockJobs "job-6") (by rfl)

/-- C10 (counterexample): `mockJobsMeta` is computed once from the
initial `mockJobs`; after `cancelJob` mutates the status of `"job-6"`
in place, `getJobs` still returns the stale metadata, whose
`active_count` (2) no longer matches the accompanying list (1 active
job). -/
theorem getJobs_meta_stale_after_cancel :
    (getJobs ((cancelJob mockJobs "job-6").toOption.getD [])).2 = mockJobsMeta ∧
    ¬ metaConsistent (getJobs ((cancelJob mockJobs "job-6").toOption.getD [])).1
        (getJobs ((cancelJob mockJobs "job-6").toOption.getD [])).2 :=
  ⟨rfl, by decide⟩

/-- C10 (amended): the metadata returned by `getJobs` is consistent —
field by field — with the job list it accompanies in the initial
module state, before any in-place mutation of `mockJobs`. -/
theorem getJobs_meta_consistent_initially :
    metaConsistent (getJobs mockJobs).1 (getJobs mockJobs).2 := by decide

/-- `connectWebSocket` never touches the `activeJobs` array. -/
theorem connectWebSocket_activeJobs (s : MonitorState) (jobId : String) :
    ((connectWebSocket s jobId).2).activeJobs = s.activeJobs := by
  unfold connectWebSocket
  split <;> rfl

/-- In the non-duplicate case, `addJob` appends the job to
`activeJobs`. -/
theorem addJob_activeJobs (s : MonitorState) (job : Job)
    (h : ¬ (s.activeJobs.find? (fun j => j.job_id == job.job_id)).isSome = true) :
    (addJob s job).activeJobs = s.activeJobs ++ [job] := by
  unfold addJob
  rw [if_neg h]
  split
  · rw [connectWebSocket_activeJobs]
  · rfl

/-- C8: `addJob` is idempotent on job identity — if a job with the
same `job_id` is already present in `activeJobs` the state is returned
unchanged (no duplicate entry, no new connection), and adding the same
job twice equals adding it once. -/
theorem addJob_idempotent (s : MonitorState) (job : Job) :
    ((s.activeJobs.find? (fun j => j.job_id == job.job_id)).isSome = true →
      addJob s job = s) ∧
    addJob (addJob s job) job = addJob s job := by
  have key : ∀ t : MonitorState,
      (t.activeJobs.find? (fun j => j.job_id == job.job_id)).isSome = true →
        addJob t job = t := by
    intro t h
    unfold addJob
    rw [if_pos h]
  refine ⟨key s, ?_⟩
  by_cases h : (s.activeJobs.find? (fun j => j.job_id == job.job_id)).isSome = true
  · rw [key s h]
    exact key s h
  · have hfind : ((addJob s job).activeJobs.find?
        (fun j => j.job_id == job.job_id)).isSome = true := by
      rw [addJob_activeJobs s job h, List.find?_append]
      have hself : ([job].find? (fun j => j.job_id == job.job_id)) = some job := by
        have : ((fun j : Job => j.job_id == job.job_id) job) = true := by simp
        exact List.find?_cons_of_pos [] this
      rw [hself]
      cases s.activeJobs.find? (fun j => j.job_id == job.job_id) <;> rfl
    exact key _ hfind

/-- C8 (witness): adding a probe job whose `job_id` (`"job-6"`)
already occurs in `mockJobs` leaves the monitor state unchanged. -/
theorem addJob_idempotent_witness :
    addJob ⟨mockJobs, []⟩
      { job_id := "job-6", vid_id := none, status := JobStatus.pending
      , progress_percentage := 0, current_step := none, created_at := ""
      , completed_at := none, error_message := none, marked_as_read := false
      , parameters := { prompt := "", width := 0, height := 0, video_length := 0, fps := 0 } } =
      ⟨mockJobs, []⟩ :=
  (addJob_idempotent ⟨mockJobs, []⟩ _).1 (by decide)

/-- The fields of a job that the patch does not mention keep their
previous values under `{ ...job, ...update }`. -/
def patchRetains (j : Job) (u : JobPatch) : Prop :=
  (u.job_id = none → (applyPatch j u).job_id = j.job_id) ∧
  (u.vid_id = none → (applyPatch j u).vid_id = j.vid_id) ∧
  (u.status = none → (applyPatch j u).status = j.status) ∧
  (u.progress_percentage = none →
    (applyPatch j u).progress_percentage = j.progress_percentage) ∧
  (u.current_step = none → (applyPatch j u).current_step = j.current_step) ∧
  (u.created_at = none → (applyPatch j u).created_at = j.created_at) ∧
  (u.completed_at = none → (applyPatch j u).completed_at = j.completed_at) ∧
  (u.error_message = none → (applyPatch j u).error_message = j.error_message) ∧
  (u.marked_as_read = none → (applyPatch j u).marked_as_read = j.marked_as_read) ∧
  (u.parameters = none → (applyPatch j u).parameters = j.parameters)

/-- The `activeJobs` component of `updateJob` is a pointwise map. -/
theorem updateJob_activeJobs (s : MonitorState) (jobId : String) (u : JobPatch) :
    (updateJob s jobId u).activeJobs =
      s.activeJobs.map (fun job => if job.job_id == jobId then applyPatch job u else job) := by
  unfold updateJob disconnectWebSocket
  split <;> rfl

/-- C9: `updateJob jobId update` modifies only the job whose `job_id`
equals `jobId` — every entry with a different id is unchanged at its
position, the matching entry becomes `{ ...job, ...update }`, and every
field the update does not mention retains its previous value. -/
theorem updateJob_frame (s : MonitorState) (jobId : String) (u : JobPatch)
    (i : Nat) (d : Job) :
    ((s.activeJobs.getD i d).job_id ≠ jobId →
      (updateJob s jobId u).activeJobs.getD i d = s.activeJobs.getD i d) ∧
    (i < s.activeJobs.length → (s.activeJobs.getD i d).job_id = jobId →
      (updateJob s jobId u).activeJobs.getD i d = applyPatch (s.activeJobs.getD i d) u) ∧
    patchRetains (s.activeJobs.getD i d) u := by
  have hretains : ∀ (j : Job), patchRetains j u := by
    intro j
    unfold patchRetains
    and_intros <;> intro h <;> simp [applyPatch, h]
  by_cases hlen : i < s.activeJobs.length
  · have hget : (updateJob s jobId u).activeJobs.getD i d =
        (if (s.activeJobs.get ⟨i, hlen⟩).job_id == jobId then
          applyPatch (s.activeJobs.get ⟨i, hlen⟩) u else s.activeJobs.get ⟨i, hlen⟩) := by
      rw [updateJob_activeJobs, List.getD_eq_getD_get? _ d i, List.get?_map _ _ i,
        s.activeJobs.get?_eq_get hlen]
      rfl
    have hgetd : s.activeJobs.getD i d = s.activeJobs.get ⟨i, hlen⟩ := by
      rw [List.getD_eq_getD_get? _ d i, s.activeJobs.get?_eq_get hlen]
      rfl
    refine ⟨?_, ?_, hretains _⟩
    · intro hne
      rw [hget, hgetd, if_neg]
      rw [hgetd] at hne
      simpa using hne
    · intro _ heq
      rw [hget, hgetd, if_pos]
      rw [hgetd] at heq
      simpa using heq
  · have hout : s.activeJobs.length ≤ i := Nat.le_of_not_lt hlen
    have h1 : s.activeJobs.getD i d = d := by
      rw [List.getD_eq_getD_get? _ d i, List.get?_eq_none.mpr hout]
      rfl
    have h2 : (updateJob s jobId u).activeJobs.getD i d = d := by
      rw [updateJob_activeJobs, List.getD_eq_getD_get? _ d i,
        List.get?_eq_none.mpr (by simpa using hout)]
      rfl
    exact ⟨fun _ => by rw [h1, h2], fun hlt _ => absurd hlt hlen, hretains _⟩

/-- C9 (witness): updating `"job-6"` in the mock monitor state with a
progress-only patch leaves the non-matching first entry unchanged and
patches the matching entry, whose unmentioned fields are retained. -/
theorem updateJob_frame_witness :
    ((updateJob ⟨mockJobs, []⟩ "job-6"
        { progress_percentage := some 80 }).activeJobs.getD 0
        (default : Job) =
      mockJobs.getD 0 (default : Job)) ∧
    ((updateJob ⟨mockJobs, []⟩ "job-6"
        { progress_percentage := some 80 }).activeJobs.getD 5
        (default : Job) =
      applyPatch (mockJobs.getD 5 (default : Job))
        { progress_percentage := some 80 }) := by
  constructor
  · exact (updateJob_frame ⟨mockJobs, []⟩ "job-6" { progress_percentage := some 80 }
      0 ((default : Job))).1 (by decide)
  · exact (updateJob_frame ⟨mockJobs, []⟩ "job-6" { progress_percentage := some 80 }
      5 ((default : Job))).2.1 (by decide) (by decide)

/-- C6 (counterexample): an event whose status string is terminal but
whose `final` flag is false still closes the connection — `updateJob`
disconnects on any terminal status, so the close is not governed by
the `final` flag alone. -/
theorem ws_closes_on_nonfinal_terminal :
    ({ job_id := "job-6", status := "completed", progress_percentage := 80
     , current_step := none, final := false, timestamp := "t" } : JobUpdateMsg).final
      = false ∧
    wsOnMessage ["job-6"] "job-6"
      { job_id := "job-6", status := "completed", progress_percentage := 80
      , current_step := none, final := false, timestamp := "t" } = [] := by
  exact ⟨rfl, by decide⟩

/-- C6 (amended): delivering a message removes the job's connection
from the table exactly when the message's `final` flag is set or its
status string is terminal (`completed`/`failed`/`cancelled`); a
message with `final = false` and a non-terminal status never closes
the stream. -/
theorem wsOnMessage_closes_iff (conns : List String) (jobId : String)
    (u : JobUpdateMsg) (hnd : conns.Nodup) (hmem : jobId ∈ conns) :
    (jobId ∉ wsOnMessage conns jobId u ↔
      (u.final = true ∨ isTerminalStr u.status = true)) := by
  unfold wsOnMessage
  by_cases ht : isTerminalStr u.status = true <;>
    by_cases hf : u.final = true
  · rw [if_pos ht, if_pos hf]
    constructor
    · intro _
      exact Or.inl hf
    · intro _ hin
      exact hnd.not_mem_erase (List.mem_of_mem_erase hin)
  · rw [if_pos ht, if_neg hf]
    constructor
    · intro _
      exact Or.inr ht
    · intro _ hin
      exact hnd.not_mem_erase hin
  · rw [if_neg ht, if_pos hf]
    constructor
    · intro _
      exact Or.inl hf
    · intro _ hin
      exact hnd.not_mem_erase hin
  · rw [if_neg ht, if_neg hf]
    constructor
    · intro hnotin
      exact absurd hmem hnotin
    · intro h
      rcases h with h | h
      · exact absurd h hf
      · exact absurd h ht

/-- C6 (witness): a `final = true` message removes the `"job-6"`
connection from a singleton table. -/
theorem wsOnMessage_closes_iff_witness :
    "job-6" ∉ wsOnMessage ["job-6"] "job-6"
      { job_id := "job-6", status := "processing", progress_percentage := 50
      , current_step := none, final := true, timestamp := "t" } :=
  (wsOnMessage_closes_iff ["job-6"] "job-6"
    { job_id := "job-6", status := "processing", progress_percentage := 50
    , current_step := none, final := true, timestamp := "t" }
    (by decide) (by decide)).mpr (Or.inl rfl)

/-- C7 (counterexample): subscribing to the nonexistent job id
`"ghost"` does not fail: `connectWebSocket` raises no error condition
(first component `none`, not `NOT_FOUND`), registers a mock connection,
and that connection's first tick merely clears its own interval,
leaving the state untouched — it silently does nothing. -/
theorem connect_unknown_job_no_notfound :
    (connectWebSocket ⟨[], []⟩ "ghost").1 = none ∧
    ((connectWebSocket ⟨[], []⟩ "ghost").2).websockets = ["ghost"] ∧
    mockTick (connectWebSocket ⟨[], []⟩ "ghost").2 "ghost" 0 5 =
      ((connectWebSocket ⟨[], []⟩ "ghost").2, none) := by
  exact ⟨rfl, rfl, rfl⟩

/-- C7 (amended): for a job id with no matching job in `activeJobs`,
`connectWebSocket` raises no error (in particular no NotFound
condition) and the first firing of the registered mock interval clears
itself without modifying the state. -/
theorem connect_unknown_job_silent (s : MonitorState) (jobId : String) (acc r : ℚ)
    (h : s.activeJobs.find? (fun j => j.job_id == jobId) = none) :
    (connectWebSocket s jobId).1 = none ∧
    mockTick (connectWebSocket s jobId).2 jobId acc r =
      ((connectWebSocket s jobId).2, none) := by
  constructor
  · unfold connectWebSocket
    split <;> rfl
  · unfold mockTick
    rw [connectWebSocket_activeJobs, h]

/-- C7 (witness): instantiating the silent-connect property at the
empty monitor state and the unknown id `"ghost"`. -/
theorem connect_unknown_job_silent_witness :
    (connectWebSocket ⟨[], []⟩ "ghost").1 = none ∧
    mockTick (connectWebSocket ⟨[], []⟩ "ghost").2 "ghost" 0 5 =
      ((connectWebSocket ⟨[], []⟩ "ghost").2, none) :=
  connect_unknown_job_silent ⟨[], []⟩ "ghost" 0 5 (by rfl)

/-- No step of the job-update relation produces a `pending` status:
the mock tick writes `processing` or `completed`, and cancel writes
`cancelled`. -/
theorem jobStep_status_ne_pending {s s' : JobState} (h : JobStep s s') :
    s'.status ≠ JobStatus.pending := by
  cases h with
  | tick r h0 h1 =>
    show tickStatus (tickAcc s.progress r) ≠ JobStatus.pending
    unfold tickStatus
    split <;> decide
  | cancel hact =>
    show JobStatus.cancelled ≠ JobStatus.pending
    decide

/-- No step of the job-update relation produces a `failed` status: the
mock tick writes `processing` or `completed`, cancel writes
`cancelled`, and the initial status is `pending`, so `failed` is
unreachable in the mock monitor. -/
theorem reachable_not_failed {s : JobState}
    (h : Relation.ReflTransGen JobStep initJobState s) :
    s.status ≠ JobStatus.failed := by
  induction h with
  | refl => decide
  | @tail b c hab hbc ih =>
    cases hbc with
    | tick r h0 h1 =>
      show tickStatus (tickAcc b.progress r) ≠ JobStatus.failed
      unfold tickStatus
      split <;> decide
    | cancel hact =>
      show JobStatus.cancelled ≠ JobStatus.failed
      decide

/-- Along any run from the initial state, a `completed` job has
accumulator exactly 100: `completed` is only ever written by a tick
whose clamped accumulator reached 100. -/
theorem reachable_completed_progress {s : JobState}
    (h : Relation.ReflTransGen JobStep initJobState s) :
    s.status = JobStatus.completed → s.progress = 100 := by
  induction h with
  | refl => intro hc; cases hc
  | @tail b c hab hbc ih =>
    intro hc
    cases hbc with
    | tick r h0 h1 =>
      by_cases hge : tickAcc b.progress r ≥ 100
      · show tickAcc b.progress r = 100
        have hle : tickAcc b.progress r ≤ 100 := min_le_left _ _
        linarith
      · have hst : tickStatus (tickAcc b.progress r) = JobStatus.processing := by
          unfold tickStatus
          rw [if_neg hge]
        have himp : JobStatus.processing = JobStatus.completed := by
          rw [← hst]
          exact hc
        cases himp
    | cancel hact =>
      have himp : JobStatus.cancelled = JobStatus.completed := hc
      cases himp

/-- Along any run from the initial state, a job that is still
`pending` has never been ticked, so its progress accumulator is 0. -/
theorem reachable_pending_progress {s : JobState}
    (h : Relation.ReflTransGen JobStep initJobState s) :
    s.status = JobStatus.pending → s.progress = 0 := by
  induction h with
  | refl => intro _; rfl
  | tail hab hbc ih =>
    intro hc
    exact absurd hc (jobStep_status_ne_pending hbc)

/-- C2 (counterexample): the mock progress interval checks only that
the job is still in `activeJobs`, never its status; after
`videoApi.cancelJob` has set the shared record of `"job-6"` to
`cancelled` without clearing the interval, the next tick (accumulator
65, increment 5) rewrites that record to `processing` — a step of the
job-update relation does move a job out of a terminal status.  Shown
both on the abstract relation and on `mockTick` applied to the
cancelled mock state. -/
theorem tick_moves_cancelled_to_processing :
    JobStep ⟨JobStatus.cancelled, 65⟩ ⟨JobStatus.processing, 70⟩ ∧
    ((cancelFirst mockJobs "job-6").find? (fun j => j.job_id == "job-6")).map
      Job.status = some JobStatus.cancelled ∧
    ((mockTick ⟨cancelFirst mockJobs "job-6", ["job-6"]⟩ "job-6" 65 5).1.activeJobs.find?
        (fun j => j.job_id == "job-6")).map Job.status = some JobStatus.processing := by
  have hacc : tickAcc (65 : ℚ) 5 = 70 := by
    unfold tickAcc
    rw [show (65 : ℚ) + 5 = 70 by norm_num]
    exact min_eq_right (by norm_num)
  refine ⟨?_, by decide, ?_⟩
  · have hst : tickStatus (70 : ℚ) = JobStatus.processing := by
      unfold tickStatus
      rw [if_neg (by norm_num)]
    have h : JobStep ⟨JobStatus.cancelled, 65⟩
        ⟨tickStatus (tickAcc (65 : ℚ) 5), tickAcc (65 : ℚ) 5⟩ :=
      JobStep.tick ⟨JobStatus.cancelled, 65⟩ 5 (by norm_num) (by norm_num)
    rw [hacc, hst] at h
    exact h
  · simp only [mockTick, hacc]
    decide

/-- C2 (amended): from the initial `pending` state, no step of the
job-update relation re-enters `pending`, `completed` is never left,
and every status change from a non-`cancelled` status follows the
lifecycle `pending → processing → {completed, failed, cancelled}`
(cancellation also directly from `pending`) with strictly increasing
lifecycle rank.  `cancelled`, however, is not stable: a mock progress
tick racing `videoApi.cancelJob` moves a cancelled job back to
`processing` or `completed` (see the counterexample). -/
theorem jobStep_lifecycle (s s' : JobState)
    (hreach : Relation.ReflTransGen JobStep initJobState s)
    (hstep : JobStep s s') :
    s'.status ≠ JobStatus.pending ∧
    (s.status = JobStatus.completed → s'.status = JobStatus.completed) ∧
    (s.status ≠ JobStatus.cancelled → s.status ≠ s'.status →
      statusTransitionOk s.status s'.status ∧
      statusRank s.status < statusRank s'.status) := by
  refine ⟨jobStep_status_ne_pending hstep, ?_, ?_⟩
  · intro hc
    cases hstep with
    | tick r h0 h1 =>
      have hp : s.progress = 100 := reachable_completed_progress hreach hc
      show tickStatus (tickAcc s.progress r) = JobStatus.completed
      have hacc : tickAcc s.progress r = 100 := by
        unfold tickAcc
        rw [hp]
        exact min_eq_left (by linarith)
      rw [hacc]
      unfold tickStatus
      rw [if_pos (by norm_num)]
    | cancel hact =>
      rcases hact with h | h <;> rw [hc] at h <;> cases h
  · intro hnc hne
    cases hstep with
    | tick r h0 h1 =>
      cases hs : s.status with
      | pending =>
        have hz : s.progress = 0 := reachable_pending_progress hreach hs
        have hlt : tickAcc s.progress r < 100 := by
          rw [hz]
          unfold tickAcc
          calc min 100 (0 + r) ≤ 0 + r := min_le_right _ _
            _ < 100 := by linarith
        have hts : tickStatus (tickAcc s.progress r) = JobStatus.processing := by
          unfold tickStatus
          rw [if_neg (not_le.mpr hlt)]
        show statusTransitionOk JobStatus.pending (tickStatus (tickAcc s.progress r)) ∧
          statusRank JobStatus.pending < statusRank (tickStatus (tickAcc s.progress r))
        rw [hts]
        exact ⟨trivial, by decide⟩
      | processing =>
        show statusTransitionOk JobStatus.processing (tickStatus (tickAcc s.progress r)) ∧
          statusRank JobStatus.processing < statusRank (tickStatus (tickAcc s.progress r))
        by_cases hge : tickAcc s.progress r ≥ 100
        · have hts : tickStatus (tickAcc s.progress r) = JobStatus.completed := by
            unfold tickStatus
            rw [if_pos hge]
          rw [hts]
          exact ⟨trivial, by decide⟩
        · have hts : tickStatus (tickAcc s.progress r) = JobStatus.processing := by
            unfold tickStatus
            rw [if_neg hge]
          have heq : s.status = (⟨tickStatus (tickAcc s.progress r),
              tickAcc s.progress r⟩ : JobState).status := by
            show s.status = tickStatus (tickAcc s.progress r)
            rw [hts, hs]
          exact absurd heq hne
      | completed =>
        have hp : s.progress = 100 := reachable_completed_progress hreach hs
        have hacc : tickAcc s.progress r = 100 := by
          unfold tickAcc
          rw [hp]
          exact min_eq_left (by linarith)
        have heq : s.status = (⟨tickStatus (tickAcc s.progress r),
            tickAcc s.progress r⟩ : JobState).status := by
          show s.status = tickStatus (tickAcc s.progress r)
          rw [hacc]
          unfold tickStatus
          rw [if_pos (by norm_num), hs]
        exact absurd heq hne
      | failed => exact absurd hs (reachable_not_failed hreach)
      | cancelled => exact absurd hs hnc
    | cancel hact =>
      show statusTransitionOk s.status JobStatus.cancelled ∧
        statusRank s.status < statusRank JobStatus.cancelled
      rcases hact with h | h <;> rw [h] <;> exact ⟨trivial, by decide⟩

/-- C2 (witness): the initial state is reachable, one tick with
increment 5 is a step from it to `(processing, 5)`, and the amended
lifecycle conclusions hold there. -/
theorem jobStep_lifecycle_witness :
    JobStep initJobState ⟨JobStatus.processing, 5⟩ ∧
    ((⟨JobStatus.processing, 5⟩ : JobState).status ≠ JobStatus.pending ∧
      (initJobState.status = JobStatus.completed →
        (⟨JobStatus.processing, 5⟩ : JobState).status = JobStatus.completed) ∧
      (initJobState.status ≠ JobStatus.cancelled →
        initJobState.status ≠ (⟨JobStatus.processing, 5⟩ : JobState).status →
        statusTransitionOk initJobState.status
          (⟨JobStatus.processing, 5⟩ : JobState).status ∧
        statusRank initJobState.status <
          statusRank (⟨JobStatus.processing, 5⟩ : JobState).status)) := by
  have hacc : tickAcc initJobState.progress 5 = 5 := by
    unfold tickAcc initJobState
    norm_num
  have hst : tickStatus (tickAcc initJobState.progress 5) = JobStatus.processing := by
    rw [hacc]
    unfold tickStatus
    rw [if_neg (by norm_num)]
  have hstep : JobStep initJobState ⟨JobStatus.processing, 5⟩ := by
    have h := JobStep.tick initJobState 5 (by norm_num) (by norm_num)
    rw [hst, hacc] at h
    exact h
  exact ⟨hstep,
    jobStep_lifecycle initJobState ⟨JobStatus.processing, 5⟩
      Relation.ReflTransGen.refl hstep⟩

/-- C4: one progress update never decreases the accumulator and keeps
it within `[0, 100]`; consequently the reported integer
`progress_percentage` (the floor, clamped to `Nat`) is monotonically
non-decreasing and stays within `[0, 100]`. -/
theorem tick_progress_monotone (acc r : ℚ)
    (h0 : 0 ≤ acc) (h1 : acc ≤ 100) (hr : 0 ≤ r) :
    acc ≤ tickAcc acc r ∧ 0 ≤ tickAcc acc r ∧ tickAcc acc r ≤ 100 ∧
    Int.toNat ⌊acc⌋ ≤ Int.toNat ⌊tickAcc acc r⌋ ∧
    Int.toNat ⌊tickAcc acc r⌋ ≤ 100 := by
  have hle : acc ≤ tickAcc acc r := le_min h1 (by linarith)
  have hge : 0 ≤ tickAcc acc r := le_trans h0 hle
  have hle100 : tickAcc acc r ≤ 100 := min_le_left _ _
  refine ⟨hle, hge, hle100, ?_, ?_⟩
  · exact Int.toNat_le_toNat (Int.floor_le_floor hle)
  · have hfl : ⌊tickAcc acc r⌋ ≤ (100 : ℤ) := by
      have h2 := Int.floor_le_floor hle100
      norm_num at h2
      exact h2
    exact Int.toNat_le.mpr (by exact_mod_cast hfl)

/-- C4 (witness): one update from accumulator 50 with increment 7. -/
theorem tick_progress_monotone_witness :
    (50 : ℚ) ≤ tickAcc 50 7 ∧ 0 ≤ tickAcc 50 7 ∧ tickAcc 50 7 ≤ 100 ∧
    Int.toNat ⌊(50 : ℚ)⌋ ≤ Int.toNat ⌊tickAcc 50 7⌋ ∧
    Int.toNat ⌊tickAcc 50 7⌋ ≤ 100 :=
  tick_progress_monotone 50 7 (by norm_num) (by norm_num) (by norm_num)

end AuraAnim
